import Mathlib

/-!
Verification of the template-set management layer of GannettDigital/pongo2
(`template_sets.go`): template groups with a loader, a sandbox (banned
tags/filters frozen at first compile), and a compile-once template cache.

The embedding is a direct functional translation of `template_sets.go`.
Go's pointer-receiver mutation becomes explicit state passing: every
operation returns its result together with the updated `TemplateSet`.
Calls to the loader (`loader.Get`) and to the external compiler
(`newTemplate`) are additionally recorded in an event trace, so that
"fetches and compiles anew" style properties are statable.
-/

namespace Pongo2

/-- Raw template source bytes (Go `[]byte`), modelled as a string. -/
abbrev Bytes := String

/-- A template context (Go `type Context map[string]interface{}`). The values
are opaque to the management layer, so they are modelled as strings. -/
abbrev Context := List (String × String)

/-- The compiled template artifact (Go `*Template`, defined in `template.go`
which is outside this file set). Only the fields the management layer reads
are modelled: `name` (the identity used as resolution base) and
`isTplString` (string-origin marker), plus the raw source for concreteness. -/
structure Template where
  name : String
  isTplString : Bool
  source : Bytes
deriving Repr, DecidableEq

/-- The structured error value (Go `*Error`, defined in `error.go`, outside this
file set); only the three fields `FromFile` populates are modelled. -/
structure Error where
  Filename : String
  Sender : String
  ErrorMsg : String
deriving Repr, DecidableEq

/-- Combined outcome of `loader.Get` followed by `ioutil.ReadAll`:
`Get` itself may fail, the returned reader may fail while being read,
or reading yields the source bytes. -/
inductive FetchResult where
  | getErr (msg : String)
  | readErr (msg : String)
  | ok (buf : Bytes)
deriving Repr, DecidableEq

/-- Go `type TemplateLoader interface` with `Abs(base, name string) string`
and `Get(path string) (io.Reader, error)`; the reader is already folded
into `FetchResult`. -/
structure TemplateLoader where
  Abs : String → String → String
  Get : String → FetchResult

/-- Observable side effects of a compile request: a fetch of a path through
the loader, or a compile of a buffer attributed to a filename. -/
inductive Event where
  | fetch (path : String)
  | compile (filename : String)
deriving Repr, DecidableEq

/-- Go `type TemplateSet struct`. The two mutexes are dropped (the model is
sequential); the banned-name maps `map[string]bool` become lists of names and
the template cache `map[string]*Template` becomes an association list. -/
structure TemplateSet where
  name : String
  loader : TemplateLoader
  Globals : Context
  Debug : Bool
  firstTemplateCreated : Bool
  bannedTags : List String
  bannedFilters : List String
  templateCache : List (String × Template)

/-- Go `NewSet(name string, loader TemplateLoader) *TemplateSet`: empty
globals, empty banned sets, empty cache; `Debug` and `firstTemplateCreated`
take Go's zero value `false`. -/
def NewSet (name : String) (loader : TemplateLoader) : TemplateSet :=
  { name := name
    loader := loader
    Globals := []
    Debug := false
    firstTemplateCreated := false
    bannedTags := []
    bannedFilters := []
    templateCache := [] }

/-- Go `(set *TemplateSet) resolveFilename(tpl *Template, path string) string`.
`tpl = none` models the `nil` pointer. -/
def resolveFilename (set : TemplateSet) (tpl : Option Template) (path : String) : String :=
  match tpl with
  | some t =>
    if t.isTplString then path
    else set.loader.Abs t.name path
  | none => set.loader.Abs "" path

/-- Error text of Go `fmt.Errorf("Tag '%s' not found.", name)`. -/
def tagNotFoundMsg (name : String) : String :=
  "Tag \x27" ++ name ++ "\x27 not found."

/-- Error text returned by `BanTag` once the first template exists. -/
def tagsFrozenMsg : String :=
  "You cannot ban any tags after you\x27ve added your first template to your template set."

/-- Error text of Go `fmt.Errorf("Tag '%s' is already banned.", name)`. -/
def tagAlreadyBannedMsg (name : String) : String :=
  "Tag \x27" ++ name ++ "\x27 is already banned."

/-- Error text of Go `fmt.Errorf("Filter '%s' not found.", name)`. -/
def filterNotFoundMsg (name : String) : String :=
  "Filter \x27" ++ name ++ "\x27 not found."

/-- Error text returned by `BanFilter` once the first template exists. -/
def filtersFrozenMsg : String :=
  "You cannot ban any filters after you\x27ve added your first template to your template set."

/-- Error text of Go `fmt.Errorf("Filter '%s' is already banned.", name)`. -/
def filterAlreadyBannedMsg (name : String) : String :=
  "Filter \x27" ++ name ++ "\x27 is already banned."

/-- Go `(set *TemplateSet) BanTag(name string) error`. The global registry
`tags` (populated in `tags.go`, outside this file set) is passed explicitly
as the list of registered tag names. Returns the Go error (`Except.ok ()`
for `nil`) together with the updated set. -/
def BanTag (tags : List String) (set : TemplateSet) (name : String) :
    Except String Unit × TemplateSet :=
  if tags.contains name = false then
    (Except.error (tagNotFoundMsg name), set)
  else if set.firstTemplateCreated then
    (Except.error tagsFrozenMsg, set)
  else if set.bannedTags.contains name then
    (Except.error (tagAlreadyBannedMsg name), set)
  else
    (Except.ok (), { set with bannedTags := name :: set.bannedTags })

/-- Go `(set *TemplateSet) BanFilter(name string) error`, against the global
registry `filters` (populated in `filters.go`, outside this file set). -/
def BanFilter (filters : List String) (set : TemplateSet) (name : String) :
    Except String Unit × TemplateSet :=
  if filters.contains name = false then
    (Except.error (filterNotFoundMsg name), set)
  else if set.firstTemplateCreated then
    (Except.error filtersFrozenMsg, set)
  else if set.bannedFilters.contains name then
    (Except.error (filterAlreadyBannedMsg name), set)
  else
    (Except.ok (), { set with bannedFilters := name :: set.bannedFilters })

/-- Modelled from the spec: the external compiler `newTemplate(set, name,
isTplString, tpl)` lives in `template.go`, which is not part of this file
set. Per the spec it turns source bytes into a Compiled Template carrying
its originating name and string-origin flag, or fails with a `CompileError`
tagged with the path and the `compile` stage. The parse outcome itself
(lexing/parsing/sandbox checking) is out of scope and abstracted as the
function argument `parse`. -/
def newTemplate (parse : Bytes → Except String Unit) (filename : String)
    (isTplString : Bool) (tpl : Bytes) : Except Error Template :=
  match parse tpl with
  | Except.ok _ =>
    Except.ok { name := filename, isTplString := isTplString, source := tpl }
  | Except.error msg =>
    Except.error { Filename := filename, Sender := "compile", ErrorMsg := msg }

/-- Modelled from the spec: `newTemplateString(set, tpl)` (in `template.go`,
outside this file set) compiles a raw string into a string-origin template
with no path identity. -/
def newTemplateString (parse : Bytes → Except String Unit) (tpl : Bytes) :
    Except Error Template :=
  newTemplate parse "<string>" true tpl

/-- Go `(set *TemplateSet) FromString(tpl string) (*Template, error)`:
sets `firstTemplateCreated` and delegates to `newTemplateString`. -/
def FromString (parse : Bytes → Except String Unit) (set : TemplateSet)
    (tpl : String) : Except Error Template × TemplateSet × List Event :=
  let set1 : TemplateSet := { set with firstTemplateCreated := true }
  (newTemplateString parse tpl, set1, [Event.compile "<string>"])

/-- Go `(set *TemplateSet) FromFile(filename string) (*Template, error)`:
sets `firstTemplateCreated`, resolves the filename top-level, fetches it via
the loader (`Get` plus `ReadAll`), wrapping either failure in an `Error`
with `Sender` `"fromfile"`, then compiles via `newTemplate`. -/
def FromFile (parse : Bytes → Except String Unit) (set : TemplateSet)
    (filename : String) : Except Error Template × TemplateSet × List Event :=
  let set1 : TemplateSet := { set with firstTemplateCreated := true }
  match set1.loader.Get (resolveFilename set1 none filename) with
  | FetchResult.getErr msg =>
    (Except.error { Filename := filename, Sender := "fromfile", ErrorMsg := msg },
      set1, [Event.fetch (resolveFilename set1 none filename)])
  | FetchResult.readErr msg =>
    (Except.error { Filename := filename, Sender := "fromfile", ErrorMsg := msg },
      set1, [Event.fetch (resolveFilename set1 none filename)])
  | FetchResult.ok buf =>
    (newTemplate parse filename false buf, set1,
      [Event.fetch (resolveFilename set1 none filename), Event.compile filename])

/-- Go `(set *TemplateSet) FromCache(filename string) (*Template, error)`.
In debug mode it recompiles on every request via `FromFile`. Otherwise it
resolves the filename, looks the cleaned name up in the cache, and on a miss
delegates to `FromFile` on the *cleaned* filename, inserting the result on
success and inserting nothing on failure. -/
def FromCache (parse : Bytes → Except String Unit) (set : TemplateSet)
    (filename : String) : Except Error Template × TemplateSet × List Event :=
  if set.Debug then
    FromFile parse set filename
  else
    let cleanedFilename := resolveFilename set none filename
    match set.templateCache.lookup cleanedFilename with
    | some tpl => (Except.ok tpl, set, [])
    | none =>
      match FromFile parse set cleanedFilename with
      | (Except.ok tpl, set1, evs) =>
        (Except.ok tpl,
          { set1 with templateCache := (cleanedFilename, tpl) :: set1.templateCache },
          evs)
      | (Except.error e, set1, evs) => (Except.error e, set1, evs)

/-- Go `(set *TemplateSet) RenderTemplateString(s string, ctx Context)`.
Only the state effect is modelled: it sets `firstTemplateCreated` and
compiles via `FromString`; `Must` and `Execute` are external. -/
def RenderTemplateString (parse : Bytes → Except String Unit)
    (set : TemplateSet) (s : String) : TemplateSet :=
  (FromString parse { set with firstTemplateCreated := true } s).2.1

/-- Go `(set *TemplateSet) RenderTemplateFile(fn string, ctx Context)`.
Only the state effect is modelled: it sets `firstTemplateCreated` and
compiles via `FromFile`; `Must` and `Execute` are external. -/
def RenderTemplateFile (parse : Bytes → Except String Unit)
    (set : TemplateSet) (fn : String) : TemplateSet :=
  (FromFile parse { set with firstTemplateCreated := true } fn).2.1

/-- One state transition of a `TemplateSet`: any public operation of
`template_sets.go`, plus direct writes to the public mutable fields `Debug`
and `Globals`. -/
inductive Step (parse : Bytes → Except String Unit) :
    TemplateSet → TemplateSet → Prop where
  | banTag (s : TemplateSet) (reg : List String) (nm : String) :
      Step parse s (BanTag reg s nm).2
  | banFilter (s : TemplateSet) (reg : List String) (nm : String) :
      Step parse s (BanFilter reg s nm).2
  | fromString (s : TemplateSet) (src : String) :
      Step parse s (FromString parse s src).2.1
  | fromFile (s : TemplateSet) (f : String) :
      Step parse s (FromFile parse s f).2.1
  | fromCache (s : TemplateSet) (f : String) :
      Step parse s (FromCache parse s f).2.1
  | renderTemplateString (s : TemplateSet) (src : String) :
      Step parse s (RenderTemplateString parse s src)
  | renderTemplateFile (s : TemplateSet) (f : String) :
      Step parse s (RenderTemplateFile parse s f)
  | setDebug (s : TemplateSet) (b : Bool) :
      Step parse s { s with Debug := b }
  | setGlobals (s : TemplateSet) (g : Context) :
      Step parse s { s with Globals := g }

/-- `s'` is reachable from `s` by any sequence of public operations. -/
abbrev Reachable (parse : Bytes → Except String Unit)
    (s s' : TemplateSet) : Prop :=
  Relation.ReflTransGen (Step parse) s s'

/-! Concrete instances used to exercise the model on closed inputs. -/

/-- A parser stub that accepts every source (the external parser is out of
scope; claims are proved for arbitrary `parse`). -/
def parseOk : Bytes → Except String Unit := fun _ => Except.ok ()

/-- A parser stub that rejects every source with a fixed message. -/
def parseFail : Bytes → Except String Unit := fun _ => Except.error "no parse"

/-- A loader whose top-level resolution is the identity and whose fetch
always succeeds, returning a marker body. -/
def idLoader : TemplateLoader :=
  { Abs := fun _ n => n
    Get := fun p => FetchResult.ok ("src:" ++ p) }

/-- A loader whose fetch always fails with a not-found style error. -/
def missingLoader : TemplateLoader :=
  { Abs := fun _ n => n
    Get := fun _ => FetchResult.getErr "file not found" }

/-- A loader that prefixes the base and a slash, as a directory-style
resolver would; top-level resolution is not the identity. -/
def slashLoader : TemplateLoader :=
  { Abs := fun base n => base ++ "/" ++ n
    Get := fun _ => FetchResult.getErr "file not found" }

/-- A loader whose resolution prepends `"x"` on every application, so
resolving twice differs from resolving once; fetch fails. -/
def prefixingBadLoader : TemplateLoader :=
  { Abs := fun _ n => "x" ++ n
    Get := fun _ => FetchResult.getErr "nf" }

/-- A loader whose resolution prepends `"x"` on every application and whose
fetch succeeds, echoing the fetched path into the body. -/
def prefixingOkLoader : TemplateLoader :=
  { Abs := fun _ n => "x" ++ n
    Get := fun p => FetchResult.ok ("body@" ++ p) }

/-- The cache/sandbox invariant maintained by every reachable state: a cache
entry can only exist once the first-template latch has been raised (entries
are only ever inserted through `FromFile`, which raises it). -/
def CacheImpliesLatch (s : TemplateSet) : Prop :=
  ∀ k t, s.templateCache.lookup k = some t → s.firstTemplateCreated = true

/-- A fresh set over the identity-resolution loader. -/
def wSet0 : TemplateSet := NewSet "w" idLoader

/-- The template `idLoader` produces for the path `"f"`. -/
def wTpl : Template := { name := "f", isTplString := false, source := "src:f" }

/-- `wSet0` after one successful `FromCache "f"` (caches `wTpl` under `"f"`). -/
def wSet1 : TemplateSet := (FromCache parseOk wSet0 "f").2.1

/-- `wSet1` after a further `FromString` compile. -/
def wSet2 : TemplateSet := (FromString parseOk wSet1 "x").2.1

/-- A fresh set over `idLoader` with debug mode switched on. -/
def dbgSet : TemplateSet := { NewSet "w" idLoader with Debug := true }

/-- A fresh set over `idLoader` whose first-template latch is already up. -/
def wLatchSet : TemplateSet := { NewSet "w" idLoader with firstTemplateCreated := true }

/-- A tag registry containing only `"ssi"`. -/
def c7Reg : List String := ["ssi"]

/-- A fresh set after successfully banning the tag `"ssi"`. -/
def c7Set1 : TemplateSet := (BanTag c7Reg (NewSet "c7" idLoader) "ssi").2

/-- `c7Set1` after a successful `FromString` compile (latch now up,
`"ssi"` still banned). -/
def c7Set2 : TemplateSet := (FromString parseOk c7Set1 "hello").2.1

example : (FromCache parseOk (NewSet "w" idLoader) "f").1
    = Except.ok { name := "f", isTplString := false, source := "src:f" } := rfl

example : ((FromCache parseOk (NewSet "w" idLoader) "f").2.1).templateCache
    = [("f", { name := "f", isTplString := false, source := "src:f" })] := rfl

example : (FromCache parseOk (NewSet "w" prefixingBadLoader) "m").1
    = Except.error { Filename := "xm", Sender := "fromfile", ErrorMsg := "nf" } := rfl

example : (FromCache parseOk (NewSet "w" prefixingOkLoader) "m").2.2
    = [Event.fetch "xxm", Event.compile "xm"] := rfl

/-! Helper lemmas about the individual operations. -/

theorem resolveFilename_congr (s1 s2 : TemplateSet) (tpl : Option Template)
    (p : String) (h : s1.loader = s2.loader) :
    resolveFilename s1 tpl p = resolveFilename s2 tpl p := by
  cases tpl with
  | none => unfold resolveFilename; rw [h]
  | some t => unfold resolveFilename; rw [h]

theorem FromFile_spec (parse : Bytes → Except String Unit) (s : TemplateSet)
    (f : String) :
    FromFile parse s f =
      (match s.loader.Get (s.loader.Abs "" f) with
       | FetchResult.getErr msg =>
         (Except.error { Filename := f, Sender := "fromfile", ErrorMsg := msg },
           { s with firstTemplateCreated := true }, [Event.fetch (s.loader.Abs "" f)])
       | FetchResult.readErr msg =>
         (Except.error { Filename := f, Sender := "fromfile", ErrorMsg := msg },
           { s with firstTemplateCreated := true }, [Event.fetch (s.loader.Abs "" f)])
       | FetchResult.ok buf =>
         (newTemplate parse f false buf, { s with firstTemplateCreated := true },
           [Event.fetch (s.loader.Abs "" f), Event.compile f])) := rfl

theorem FromFile_set_eq (parse : Bytes → Except String Unit) (s : TemplateSet)
    (f : String) :
    (FromFile parse s f).2.1 = { s with firstTemplateCreated := true } := by
  rw [FromFile_spec]
  cases s.loader.Get (s.loader.Abs "" f) <;> rfl

theorem FromFile_head (parse : Bytes → Except String Unit) (s : TemplateSet)
    (f : String) :
    ((FromFile parse s f).2.2).head? = some (Event.fetch (s.loader.Abs "" f)) := by
  rw [FromFile_spec]
  cases s.loader.Get (s.loader.Abs "" f) <;> rfl

theorem FromFile_error_fields (parse : Bytes → Except String Unit)
    (s : TemplateSet) (f : String) (e : Error)
    (h : (FromFile parse s f).1 = Except.error e) :
    e.Filename = f ∧ (e.Sender = "fromfile" ∨ e.Sender = "compile") := by
  rw [FromFile_spec] at h
  cases hg : s.loader.Get (s.loader.Abs "" f) with
  | getErr msg =>
    rw [hg] at h
    cases h
    exact ⟨rfl, Or.inl rfl⟩
  | readErr msg =>
    rw [hg] at h
    cases h
    exact ⟨rfl, Or.inl rfl⟩
  | ok buf =>
    rw [hg] at h
    dsimp only at h
    unfold newTemplate at h
    cases hp : parse buf with
    | ok u => rw [hp] at h; cases h
    | error msg =>
      rw [hp] at h
      cases h
      exact ⟨rfl, Or.inr rfl⟩

theorem FromFile_error_stage (parse : Bytes → Except String Unit)
    (s : TemplateSet) (f : String) (e : Error)
    (h : (FromFile parse s f).1 = Except.error e) :
    (∀ msg, s.loader.Get (s.loader.Abs "" f) = FetchResult.getErr msg →
      e = { Filename := f, Sender := "fromfile", ErrorMsg := msg }) ∧
    (∀ msg, s.loader.Get (s.loader.Abs "" f) = FetchResult.readErr msg →
      e = { Filename := f, Sender := "fromfile", ErrorMsg := msg }) ∧
    (∀ buf msg, s.loader.Get (s.loader.Abs "" f) = FetchResult.ok buf →
      parse buf = Except.error msg →
      e = { Filename := f, Sender := "compile", ErrorMsg := msg }) := by
  rw [FromFile_spec] at h
  cases hg : s.loader.Get (s.loader.Abs "" f) with
  | getErr m =>
    rw [hg] at h
    cases h
    refine ⟨fun msg hmsg => ?_, fun msg hmsg => ?_, fun buf msg hmsg hp => ?_⟩
    · cases hmsg
      rfl
    · cases hmsg
    · cases hmsg
  | readErr m =>
    rw [hg] at h
    cases h
    refine ⟨fun msg hmsg => ?_, fun msg hmsg => ?_, fun buf msg hmsg hp => ?_⟩
    · cases hmsg
    · cases hmsg
      rfl
    · cases hmsg
  | ok buf0 =>
    rw [hg] at h
    dsimp only at h
    unfold newTemplate at h
    cases hp0 : parse buf0 with
    | ok u => rw [hp0] at h; cases h
    | error m =>
      rw [hp0] at h
      cases h
      refine ⟨fun msg hmsg => ?_, fun msg hmsg => ?_, fun buf msg hmsg hp => ?_⟩
      · cases hmsg
      · cases hmsg
      · cases hmsg
        rw [hp0] at hp
        cases hp
        rfl

theorem FromFile_congr (parse : Bytes → Except String Unit)
    (s1 s2 : TemplateSet) (f : String) (h : s1.loader = s2.loader) :
    (FromFile parse s1 f).1 = (FromFile parse s2 f).1 ∧
    (FromFile parse s1 f).2.2 = (FromFile parse s2 f).2.2 := by
  rw [FromFile_spec parse s1, FromFile_spec parse s2, h]
  cases s2.loader.Get (s2.loader.Abs "" f) <;> exact ⟨rfl, rfl⟩

theorem BanTag_state (reg : List String) (s : TemplateSet) (nm : String) :
    ((BanTag reg s nm).1 = Except.ok () ∧
      (BanTag reg s nm).2 = { s with bannedTags := nm :: s.bannedTags }) ∨
    ((BanTag reg s nm).1 ≠ Except.ok () ∧ (BanTag reg s nm).2 = s) := by
  unfold BanTag
  split
  · exact Or.inr ⟨by simp, rfl⟩
  · split
    · exact Or.inr ⟨by simp, rfl⟩
    · split
      · exact Or.inr ⟨by simp, rfl⟩
      · exact Or.inl ⟨rfl, rfl⟩

theorem BanFilter_state (reg : List String) (s : TemplateSet) (nm : String) :
    ((BanFilter reg s nm).1 = Except.ok () ∧
      (BanFilter reg s nm).2 = { s with bannedFilters := nm :: s.bannedFilters }) ∨
    ((BanFilter reg s nm).1 ≠ Except.ok () ∧ (BanFilter reg s nm).2 = s) := by
  unfold BanFilter
  split
  · exact Or.inr ⟨by simp, rfl⟩
  · split
    · exact Or.inr ⟨by simp, rfl⟩
    · split
      · exact Or.inr ⟨by simp, rfl⟩
      · exact Or.inl ⟨rfl, rfl⟩

theorem BanTag_cache_latch (reg : List String) (s : TemplateSet) (nm : String) :
    ((BanTag reg s nm).2).templateCache = s.templateCache ∧
    ((BanTag reg s nm).2).firstTemplateCreated = s.firstTemplateCreated := by
  rcases BanTag_state reg s nm with ⟨_, h2⟩ | ⟨_, h2⟩ <;> rw [h2] <;> exact ⟨rfl, rfl⟩

theorem BanFilter_cache_latch (reg : List String) (s : TemplateSet) (nm : String) :
    ((BanFilter reg s nm).2).templateCache = s.templateCache ∧
    ((BanFilter reg s nm).2).firstTemplateCreated = s.firstTemplateCreated := by
  rcases BanFilter_state reg s nm with ⟨_, h2⟩ | ⟨_, h2⟩ <;> rw [h2] <;> exact ⟨rfl, rfl⟩

theorem BanTag_frozen (reg : List String) (s : TemplateSet) (nm : String)
    (hv : reg.contains nm = true) (hl : s.firstTemplateCreated = true) :
    BanTag reg s nm = (Except.error tagsFrozenMsg, s) := by
  unfold BanTag
  rw [hv, hl]
  simp

theorem BanFilter_frozen (reg : List String) (s : TemplateSet) (nm : String)
    (hv : reg.contains nm = true) (hl : s.firstTemplateCreated = true) :
    BanFilter reg s nm = (Except.error filtersFrozenMsg, s) := by
  unfold BanFilter
  rw [hv, hl]
  simp

theorem BanTag_ok (reg : List String) (s : TemplateSet) (nm : String)
    (hv : reg.contains nm = true) (hl : s.firstTemplateCreated = false)
    (hb : s.bannedTags.contains nm = false) :
    BanTag reg s nm = (Except.ok (), { s with bannedTags := nm :: s.bannedTags }) := by
  unfold BanTag
  rw [hv, hl, hb]
  simp

theorem BanFilter_ok (reg : List String) (s : TemplateSet) (nm : String)
    (hv : reg.contains nm = true) (hl : s.firstTemplateCreated = false)
    (hb : s.bannedFilters.contains nm = false) :
    BanFilter reg s nm = (Except.ok (), { s with bannedFilters := nm :: s.bannedFilters }) := by
  unfold BanFilter
  rw [hv, hl, hb]
  simp

theorem FromCache_spec (parse : Bytes → Except String Unit) (s : TemplateSet)
    (f : String) (hdbg : s.Debug = false) :
    FromCache parse s f =
      (match s.templateCache.lookup (s.loader.Abs "" f) with
       | some tpl => (Except.ok tpl, s, [])
       | none =>
         match FromFile parse s (s.loader.Abs "" f) with
         | (Except.ok tpl, set1, evs) =>
           (Except.ok tpl,
             { set1 with
                 templateCache := (s.loader.Abs "" f, tpl) :: set1.templateCache },
             evs)
         | (Except.error e, set1, evs) => (Except.error e, set1, evs)) := by
  unfold FromCache
  rw [hdbg]
  rfl

theorem FromCache_debug_eq (parse : Bytes → Except String Unit)
    (s : TemplateSet) (f : String) (hdbg : s.Debug = true) :
    FromCache parse s f = FromFile parse s f := by
  unfold FromCache
  rw [hdbg]
  rfl

theorem FromCache_cacheMono (parse : Bytes → Except String Unit)
    (s : TemplateSet) (f k : String) (t : Template)
    (hk : s.templateCache.lookup k = some t) :
    ((FromCache parse s f).2.1).templateCache.lookup k = some t := by
  by_cases hdbg : s.Debug = true
  · rw [FromCache_debug_eq parse s f hdbg, FromFile_set_eq]
    exact hk
  · have hdf : s.Debug = false := by simpa using hdbg
    rw [FromCache_spec parse s f hdf]
    cases hcl : s.templateCache.lookup (s.loader.Abs "" f) with
    | some tpl => exact hk
    | none =>
      have hne : (k == s.loader.Abs "" f) = false := by
        apply beq_eq_false_iff_ne.mpr
        intro he
        rw [he, hcl] at hk
        cases hk
      rcases hff : FromFile parse s (s.loader.Abs "" f) with ⟨r, s1, evs⟩
      have hs1 : s1 = { s with firstTemplateCreated := true } := by
        have h0 := FromFile_set_eq parse s (s.loader.Abs "" f)
        rw [hff] at h0
        exact h0
      cases r with
      | ok tpl =>
        dsimp only
        simp only [List.lookup, hne]
        rw [hs1]
        exact hk
      | error e =>
        dsimp only
        rw [hs1]
        exact hk

theorem FromCache_latchMono (parse : Bytes → Except String Unit)
    (s : TemplateSet) (f : String) (hl : s.firstTemplateCreated = true) :
    ((FromCache parse s f).2.1).firstTemplateCreated = true := by
  by_cases hdbg : s.Debug = true
  · rw [FromCache_debug_eq parse s f hdbg, FromFile_set_eq]
  · have hdf : s.Debug = false := by simpa using hdbg
    rw [FromCache_spec parse s f hdf]
    cases hcl : s.templateCache.lookup (s.loader.Abs "" f) with
    | some tpl => exact hl
    | none =>
      rcases hff : FromFile parse s (s.loader.Abs "" f) with ⟨r, s1, evs⟩
      have hs1 : s1 = { s with firstTemplateCreated := true } := by
        have h0 := FromFile_set_eq parse s (s.loader.Abs "" f)
        rw [hff] at h0
        exact h0
      cases r with
      | ok tpl => dsimp only; rw [hs1]
      | error e => dsimp only; rw [hs1]

theorem FromCache_inv (parse : Bytes → Except String Unit) (s : TemplateSet)
    (f : String) (hinv : CacheImpliesLatch s) :
    CacheImpliesLatch ((FromCache parse s f).2.1) := by
  by_cases hdbg : s.Debug = true
  · intro k t _
    rw [FromCache_debug_eq parse s f hdbg, FromFile_set_eq]
  · have hdf : s.Debug = false := by simpa using hdbg
    rw [FromCache_spec parse s f hdf]
    cases hcl : s.templateCache.lookup (s.loader.Abs "" f) with
    | some tpl => exact hinv
    | none =>
      rcases hff : FromFile parse s (s.loader.Abs "" f) with ⟨r, s1, evs⟩
      have hs1 : s1 = { s with firstTemplateCreated := true } := by
        have h0 := FromFile_set_eq parse s (s.loader.Abs "" f)
        rw [hff] at h0
        exact h0
      cases r with
      | ok tpl => intro k t _; dsimp only; rw [hs1]
      | error e => intro k t _; dsimp only; rw [hs1]

theorem FromCache_latch_of_inv (parse : Bytes → Except String Unit)
    (s : TemplateSet) (f : String) (hinv : CacheImpliesLatch s) :
    ((FromCache parse s f).2.1).firstTemplateCreated = true := by
  by_cases hdbg : s.Debug = true
  · rw [FromCache_debug_eq parse s f hdbg, FromFile_set_eq]
  · have hdf : s.Debug = false := by simpa using hdbg
    rw [FromCache_spec parse s f hdf]
    cases hcl : s.templateCache.lookup (s.loader.Abs "" f) with
    | some tpl => exact hinv (s.loader.Abs "" f) tpl hcl
    | none =>
      rcases hff : FromFile parse s (s.loader.Abs "" f) with ⟨r, s1, evs⟩
      have hs1 : s1 = { s with firstTemplateCreated := true } := by
        have h0 := FromFile_set_eq parse s (s.loader.Abs "" f)
        rw [hff] at h0
        exact h0
      cases r with
      | ok tpl => dsimp only; rw [hs1]
      | error e => dsimp only; rw [hs1]

theorem Step_cacheMono (parse : Bytes → Except String Unit)
    {s s' : TemplateSet} (hstep : Step parse s s') (k : String) (t : Template)
    (hk : s.templateCache.lookup k = some t) :
    s'.templateCache.lookup k = some t := by
  cases hstep with
  | banTag reg nm => rw [(BanTag_cache_latch reg s nm).1]; exact hk
  | banFilter reg nm => rw [(BanFilter_cache_latch reg s nm).1]; exact hk
  | fromString src => exact hk
  | fromFile f => rw [FromFile_set_eq]; exact hk
  | fromCache f => exact FromCache_cacheMono parse s f k t hk
  | renderTemplateString src => exact hk
  | renderTemplateFile f =>
    unfold RenderTemplateFile
    rw [FromFile_set_eq]
    exact hk
  | setDebug b => exact hk
  | setGlobals g => exact hk

theorem Step_latchMono (parse : Bytes → Except String Unit)
    {s s' : TemplateSet} (hstep : Step parse s s')
    (hl : s.firstTemplateCreated = true) : s'.firstTemplateCreated = true := by
  cases hstep with
  | banTag reg nm => rw [(BanTag_cache_latch reg s nm).2]; exact hl
  | banFilter reg nm => rw [(BanFilter_cache_latch reg s nm).2]; exact hl
  | fromString src => rfl
  | fromFile f => rw [FromFile_set_eq]
  | fromCache f => exact FromCache_latchMono parse s f hl
  | renderTemplateString src => rfl
  | renderTemplateFile f =>
    unfold RenderTemplateFile
    rw [FromFile_set_eq]
  | setDebug b => exact hl
  | setGlobals g => exact hl

theorem Step_inv (parse : Bytes → Except String Unit) {s s' : TemplateSet}
    (hstep : Step parse s s') (hinv : CacheImpliesLatch s) :
    CacheImpliesLatch s' := by
  cases hstep with
  | banTag reg nm =>
    intro k t hk
    rw [(BanTag_cache_latch reg s nm).1] at hk
    rw [(BanTag_cache_latch reg s nm).2]
    exact hinv k t hk
  | banFilter reg nm =>
    intro k t hk
    rw [(BanFilter_cache_latch reg s nm).1] at hk
    rw [(BanFilter_cache_latch reg s nm).2]
    exact hinv k t hk
  | fromString src => intro k t _; rfl
  | fromFile f => intro k t _; rw [FromFile_set_eq]
  | fromCache f => exact FromCache_inv parse s f hinv
  | renderTemplateString src => intro k t _; rfl
  | renderTemplateFile f =>
    intro k t _
    unfold RenderTemplateFile
    rw [FromFile_set_eq]
  | setDebug b => intro k t hk; exact hinv k t hk
  | setGlobals g => intro k t hk; exact hinv k t hk

theorem Reachable_cacheMono (parse : Bytes → Except String Unit)
    {s s' : TemplateSet} (h : Reachable parse s s') (k : String) (t : Template)
    (hk : s.templateCache.lookup k = some t) :
    s'.templateCache.lookup k = some t := by
  induction h with
  | refl => exact hk
  | tail hab hbc ih => exact Step_cacheMono parse hbc k t ih

theorem Reachable_latchMono (parse : Bytes → Except String Unit)
    {s s' : TemplateSet} (h : Reachable parse s s')
    (hl : s.firstTemplateCreated = true) : s'.firstTemplateCreated = true := by
  induction h with
  | refl => exact hl
  | tail hab hbc ih => exact Step_latchMono parse hbc ih

theorem NewSet_inv (n : String) (ld : TemplateLoader) :
    CacheImpliesLatch (NewSet n ld) := by
  intro k t hk
  cases hk

theorem Reachable_inv_aux (parse : Bytes → Except String Unit)
    {s s' : TemplateSet} (h : Reachable parse s s')
    (hinv : CacheImpliesLatch s) : CacheImpliesLatch s' := by
  induction h with
  | refl => exact hinv
  | tail hab hbc ih => exact Step_inv parse hbc ih

theorem Reachable_inv (parse : Bytes → Except String Unit) (n : String)
    (ld : TemplateLoader) {s : TemplateSet}
    (h : Reachable parse (NewSet n ld) s) : CacheImpliesLatch s :=
  Reachable_inv_aux parse h (NewSet_inv n ld)

theorem FromCache_latch_indep (parse : Bytes → Except String Unit)
    (s : TemplateSet) (f : String) :
    (FromCache parse { s with firstTemplateCreated := true } f).1
      = (FromCache parse s f).1 ∧
    (FromCache parse { s with firstTemplateCreated := true } f).2.2
      = (FromCache parse s f).2.2 := by
  by_cases hdbg : s.Debug = true
  · have hd1 : ({ s with firstTemplateCreated := true } : TemplateSet).Debug = true := hdbg
    rw [FromCache_debug_eq parse { s with firstTemplateCreated := true } f hd1,
      FromCache_debug_eq parse s f hdbg]
    exact FromFile_congr parse { s with firstTemplateCreated := true } s f rfl
  · have hdf : s.Debug = false := by simpa using hdbg
    have hd1 : ({ s with firstTemplateCreated := true } : TemplateSet).Debug = false := hdf
    rw [FromCache_spec parse { s with firstTemplateCreated := true } f hd1,
      FromCache_spec parse s f hdf]
    dsimp only
    cases hcl : s.templateCache.lookup (s.loader.Abs "" f) with
    | some tpl => exact ⟨rfl, rfl⟩
    | none =>
      rcases hff1 : FromFile parse s (s.loader.Abs "" f) with ⟨r, s1, evs⟩
      rcases hff2 : FromFile parse { s with firstTemplateCreated := true }
          (s.loader.Abs "" f) with ⟨r2, s12, evs2⟩
      have hcg := FromFile_congr parse { s with firstTemplateCreated := true } s
        (s.loader.Abs "" f) rfl
      rw [hff1, hff2] at hcg
      have hr : r2 = r := hcg.1
      have hevs : evs2 = evs := hcg.2
      rw [hr, hevs]
      cases r with
      | ok tpl => exact ⟨rfl, rfl⟩
      | error e => exact ⟨rfl, rfl⟩

/-! Claim theorems. -/

/-- C9: path resolution is deterministic and independent of cache and sandbox
state. With a pure loader, any two template sets sharing the same loader — in
particular two snapshots of one set that differ in `templateCache`,
`bannedTags`, `bannedFilters`, `firstTemplateCreated`, `Debug` or `Globals` —
resolve every (requesting-template-or-none, requestedName) pair to the same
canonical path; repeating the call trivially yields the same path again since
the model is functional. -/
theorem resolveFilename_pure (s1 s2 : TemplateSet) (tpl : Option Template)
    (p : String) (h : s1.loader = s2.loader) :
    resolveFilename s1 tpl p = resolveFilename s2 tpl p :=
  resolveFilename_congr s1 s2 tpl p h

theorem resolveFilename_pure_witness :
    ({ NewSet "a" idLoader with
        bannedTags := ["ssi"], firstTemplateCreated := true,
        templateCache := [("f", wTpl)] } : TemplateSet).loader
      = (NewSet "b" idLoader).loader ∧
    resolveFilename
        { NewSet "a" idLoader with
            bannedTags := ["ssi"], firstTemplateCreated := true,
            templateCache := [("f", wTpl)] } none "p"
      = resolveFilename (NewSet "b" idLoader) none "p" :=
  ⟨rfl,
    resolveFilename_pure
      { NewSet "a" idLoader with
          bannedTags := ["ssi"], firstTemplateCreated := true,
          templateCache := [("f", wTpl)] }
      (NewSet "b" idLoader) none "p" rfl⟩

/-- C10: a successful `BanTag` mutates only `bannedTags` and a successful
`BanFilter` mutates only `bannedFilters`; every other field (`name`, `loader`,
`Globals`, `Debug`, `firstTemplateCreated`, `templateCache`, and the other
banned set) is unchanged by any `BanTag`/`BanFilter` call, and a failing call
leaves the whole set unchanged. -/
theorem ban_frame (regT regF : List String) (s : TemplateSet) (nm : String) :
    ((BanTag regT s nm).2.name = s.name ∧
     (BanTag regT s nm).2.loader = s.loader ∧
     (BanTag regT s nm).2.Globals = s.Globals ∧
     (BanTag regT s nm).2.Debug = s.Debug ∧
     (BanTag regT s nm).2.firstTemplateCreated = s.firstTemplateCreated ∧
     (BanTag regT s nm).2.templateCache = s.templateCache ∧
     (BanTag regT s nm).2.bannedFilters = s.bannedFilters) ∧
    ((BanTag regT s nm).2 = s ∨
      ((BanTag regT s nm).1 = Except.ok () ∧
        (BanTag regT s nm).2 = { s with bannedTags := nm :: s.bannedTags })) ∧
    ((BanFilter regF s nm).2.name = s.name ∧
     (BanFilter regF s nm).2.loader = s.loader ∧
     (BanFilter regF s nm).2.Globals = s.Globals ∧
     (BanFilter regF s nm).2.Debug = s.Debug ∧
     (BanFilter regF s nm).2.firstTemplateCreated = s.firstTemplateCreated ∧
     (BanFilter regF s nm).2.templateCache = s.templateCache ∧
     (BanFilter regF s nm).2.bannedTags = s.bannedTags) ∧
    ((BanFilter regF s nm).2 = s ∨
      ((BanFilter regF s nm).1 = Except.ok () ∧
        (BanFilter regF s nm).2 = { s with bannedFilters := nm :: s.bannedFilters })) := by
  refine ⟨?_, ?_, ?_, ?_⟩
  · rcases BanTag_state regT s nm with ⟨_, h2⟩ | ⟨_, h2⟩ <;> rw [h2] <;>
      exact ⟨rfl, rfl, rfl, rfl, rfl, rfl, rfl⟩
  · rcases BanTag_state regT s nm with ⟨h1, h2⟩ | ⟨_, h2⟩
    · exact Or.inr ⟨h1, h2⟩
    · exact Or.inl h2
  · rcases BanFilter_state regF s nm with ⟨_, h2⟩ | ⟨_, h2⟩ <;> rw [h2] <;>
      exact ⟨rfl, rfl, rfl, rfl, rfl, rfl, rfl⟩
  · rcases BanFilter_state regF s nm with ⟨h1, h2⟩ | ⟨_, h2⟩
    · exact Or.inr ⟨h1, h2⟩
    · exact Or.inl h2

/-- C4 counterexample: the claim says that for a string-origin requesting
template, `resolveFilename(tpl, path)` always equals `Loader.Abs("", path)`.
In the code (`template_sets.go` line 69-71) the string-origin branch returns
`path` verbatim without consulting the loader, so for a directory-style
loader whose top-level resolution is not the identity the two differ: with
`Abs(base, name) = base ++ "/" ++ name`, resolving `"a"` from a string-origin
template yields `"a"`, while `Abs("", "a")` is `"/a"`. -/
theorem resolveFilename_string_origin_cex :
    resolveFilename (NewSet "cex" slashLoader)
        (some { name := "t", isTplString := true, source := "" }) "a" = "a" ∧
    (NewSet "cex" slashLoader).loader.Abs "" "a" = "/a" ∧
    ¬ ("a" = "/a") := by
  refine ⟨rfl, rfl, ?_⟩
  simp

/-- C4 (amended): for a string-origin requesting template, `resolveFilename`
returns the requested path unchanged, bypassing the loader entirely; it
coincides with `Loader.Abs("", path)` exactly when the loader's top-level
resolution fixes that path. -/
theorem resolveFilename_string_origin (s : TemplateSet) (t : Template)
    (p : String) (h : t.isTplString = true) :
    resolveFilename s (some t) p = p ∧
    (s.loader.Abs "" p = p → resolveFilename s (some t) p = s.loader.Abs "" p) := by
  unfold resolveFilename
  dsimp only
  rw [h, if_pos rfl]
  exact ⟨rfl, fun hid => hid.symm⟩

theorem resolveFilename_string_origin_witness :
    ({ name := "t", isTplString := true, source := "" } : Template).isTplString = true ∧
    (resolveFilename (NewSet "w" idLoader)
        (some { name := "t", isTplString := true, source := "" }) "p" = "p" ∧
      ((NewSet "w" idLoader).loader.Abs "" "p" = "p" →
        resolveFilename (NewSet "w" idLoader)
            (some { name := "t", isTplString := true, source := "" }) "p"
          = (NewSet "w" idLoader).loader.Abs "" "p")) :=
  ⟨rfl,
    resolveFilename_string_origin (NewSet "w" idLoader)
      { name := "t", isTplString := true, source := "" } "p" rfl⟩

/-- C3 counterexample: the claim says a failing `FromFile` with no prior
successful compile leaves `firstTemplateCreated` false. In the code
(`template_sets.go` line 160) `FromFile` sets the latch before fetching, so a
fetch failure on a fresh set still raises it: on a loader whose `Get` always
fails, `FromFile` returns an error yet the latch of the resulting set is
true. -/
theorem firstTemplateCreated_failure_cex :
    (NewSet "s" missingLoader).firstTemplateCreated = false ∧
    (FromFile parseOk (NewSet "s" missingLoader) "a").1
      = Except.error { Filename := "a", Sender := "fromfile",
                       ErrorMsg := "file not found" } ∧
    ((FromFile parseOk (NewSet "s" missingLoader) "a").2.1).firstTemplateCreated
      = true :=
  ⟨rfl, rfl, rfl⟩

/-- C3 (amended): `firstTemplateCreated` is false at construction and becomes
true permanently at the start of every `FromString` or `FromFile` call —
successful or not — as well as on every debug-mode or cache-missing
`FromCache` call; no operation ever resets it (it is monotone along every
step). -/
theorem firstTemplateCreated_latch (parse : Bytes → Except String Unit)
    (n : String) (ld : TemplateLoader) (s s' : TemplateSet) :
    (NewSet n ld).firstTemplateCreated = false ∧
    (∀ src, ((FromString parse s src).2.1).firstTemplateCreated = true) ∧
    (∀ f, ((FromFile parse s f).2.1).firstTemplateCreated = true) ∧
    (s.Debug = true → ∀ f,
      ((FromCache parse s f).2.1).firstTemplateCreated = true) ∧
    (s.Debug = false → ∀ f,
      s.templateCache.lookup (s.loader.Abs "" f) = none →
      ((FromCache parse s f).2.1).firstTemplateCreated = true) ∧
    (Step parse s s' → s.firstTemplateCreated = true →
      s'.firstTemplateCreated = true) := by
  refine ⟨rfl, fun src => rfl, fun f => ?_, fun hdbg f => ?_, fun hdbg f hmiss => ?_, ?_⟩
  · rw [FromFile_set_eq]
  · rw [FromCache_debug_eq parse s f hdbg, FromFile_set_eq]
  · rw [FromCache_spec parse s f hdbg, hmiss]
    rcases hff : FromFile parse s (s.loader.Abs "" f) with ⟨r, s1, evs⟩
    have hs1 : s1 = { s with firstTemplateCreated := true } := by
      have h0 := FromFile_set_eq parse s (s.loader.Abs "" f)
      rw [hff] at h0
      exact h0
    cases r with
    | ok tpl => dsimp only; rw [hs1]
    | error e => dsimp only; rw [hs1]
  · exact fun hstep hl => Step_latchMono parse hstep hl

theorem firstTemplateCreated_latch_witness :
    ((FromString parseOk wSet0 "x").2.1).firstTemplateCreated = true ∧
    ((FromFile parseOk wSet0 "a").2.1).firstTemplateCreated = true ∧
    dbgSet.Debug = true ∧
    ((FromCache parseOk dbgSet "f").2.1).firstTemplateCreated = true ∧
    wSet0.Debug = false ∧
    wSet0.templateCache.lookup (wSet0.loader.Abs "" "f") = none ∧
    ((FromCache parseOk wSet0 "f").2.1).firstTemplateCreated = true ∧
    wLatchSet.firstTemplateCreated = true ∧
    ({ wLatchSet with Globals := [] } : TemplateSet).firstTemplateCreated = true :=
  ⟨(firstTemplateCreated_latch parseOk "w" idLoader wSet0 wSet0).2.1 "x",
   (firstTemplateCreated_latch parseOk "w" idLoader wSet0 wSet0).2.2.1 "a",
   rfl,
   (firstTemplateCreated_latch parseOk "w" idLoader dbgSet dbgSet).2.2.2.1 rfl "f",
   rfl, rfl,
   (firstTemplateCreated_latch parseOk "w" idLoader wSet0 wSet0).2.2.2.2.1 rfl "f" rfl,
   rfl,
   (firstTemplateCreated_latch parseOk "w" idLoader wLatchSet
       { wLatchSet with Globals := [] }).2.2.2.2.2
     (Step.setGlobals wLatchSet []) rfl⟩

/-- C7 counterexample: the claim says `BanTag` fails with an already-banned
error whenever the name is already in the banned set. But the frozen check
comes first (`template_sets.go` lines 84-90): after banning `"ssi"` and then
compiling one template, a second `BanTag "ssi"` finds `"ssi"` in the banned
set yet fails with the frozen-sandbox error, not the already-banned one. -/
theorem ban_alreadyBanned_shadowed_cex :
    c7Set2.bannedTags.contains "ssi" = true ∧
    c7Reg.contains "ssi" = true ∧
    (BanTag c7Reg c7Set2 "ssi").1 = Except.error tagsFrozenMsg ∧
    ¬ (tagsFrozenMsg = tagAlreadyBannedMsg "ssi") := by
  refine ⟨rfl, rfl, rfl, ?_⟩
  simp [tagsFrozenMsg, tagAlreadyBannedMsg]

/-- C7 (amended): `BanTag` (resp. `BanFilter`) fails with the unknown-name
error whenever the name is absent from the registry; when the name is in the
registry and the set is *not yet frozen*, it fails with the already-banned
error if the name is already in the relevant banned set (when frozen, the
frozen error takes precedence, see the counterexample); every failing call
returns the set unchanged, and a call with a registered, unfrozen,
not-yet-banned name succeeds, adding exactly that name to the relevant
banned set. -/
theorem ban_error_taxonomy (regT regF : List String) (s : TemplateSet)
    (nm : String) :
    (regT.contains nm = false →
      BanTag regT s nm = (Except.error (tagNotFoundMsg nm), s)) ∧
    (regT.contains nm = true → s.firstTemplateCreated = false →
      s.bannedTags.contains nm = true →
      BanTag regT s nm = (Except.error (tagAlreadyBannedMsg nm), s)) ∧
    (regT.contains nm = true → s.firstTemplateCreated = false →
      s.bannedTags.contains nm = false →
      BanTag regT s nm = (Except.ok (), { s with bannedTags := nm :: s.bannedTags })) ∧
    (regF.contains nm = false →
      BanFilter regF s nm = (Except.error (filterNotFoundMsg nm), s)) ∧
    (regF.contains nm = true → s.firstTemplateCreated = false →
      s.bannedFilters.contains nm = true →
      BanFilter regF s nm = (Except.error (filterAlreadyBannedMsg nm), s)) ∧
    (regF.contains nm = true → s.firstTemplateCreated = false →
      s.bannedFilters.contains nm = false →
      BanFilter regF s nm = (Except.ok (), { s with bannedFilters := nm :: s.bannedFilters })) := by
  refine ⟨fun hv => ?_, fun hv hl hb => ?_, fun hv hl hb => ?_,
          fun hv => ?_, fun hv hl hb => ?_, fun hv hl hb => ?_⟩
  · unfold BanTag; rw [hv]; simp
  · unfold BanTag; rw [hv, hl, hb]; simp
  · exact BanTag_ok regT s nm hv hl hb
  · unfold BanFilter; rw [hv]; simp
  · unfold BanFilter; rw [hv, hl, hb]; simp
  · exact BanFilter_ok regF s nm hv hl hb

theorem ban_error_taxonomy_witness :
    (c7Reg.contains "nope" = false ∧
      BanTag c7Reg wSet0 "nope" = (Except.error (tagNotFoundMsg "nope"), wSet0)) ∧
    (c7Reg.contains "ssi" = true ∧ c7Set1.firstTemplateCreated = false ∧
      c7Set1.bannedTags.contains "ssi" = true ∧
      BanTag c7Reg c7Set1 "ssi"
        = (Except.error (tagAlreadyBannedMsg "ssi"), c7Set1)) ∧
    (c7Reg.contains "ssi" = true ∧ wSet0.firstTemplateCreated = false ∧
      wSet0.bannedTags.contains "ssi" = false ∧
      BanTag c7Reg wSet0 "ssi"
        = (Except.ok (), { wSet0 with bannedTags := "ssi" :: wSet0.bannedTags })) ∧
    (c7Reg.contains "nope" = false ∧
      BanFilter c7Reg wSet0 "nope"
        = (Except.error (filterNotFoundMsg "nope"), wSet0)) ∧
    (c7Reg.contains "ssi" = true ∧ wSet0.firstTemplateCreated = false ∧
      wSet0.bannedFilters.contains "ssi" = false ∧
      BanFilter c7Reg wSet0 "ssi"
        = (Except.ok (), { wSet0 with bannedFilters := "ssi" :: wSet0.bannedFilters })) :=
  ⟨⟨rfl, (ban_error_taxonomy c7Reg c7Reg wSet0 "nope").1 rfl⟩,
   ⟨rfl, rfl, rfl, (ban_error_taxonomy c7Reg c7Reg c7Set1 "ssi").2.1 rfl rfl rfl⟩,
   ⟨rfl, rfl, rfl, (ban_error_taxonomy c7Reg c7Reg wSet0 "ssi").2.2.1 rfl rfl rfl⟩,
   ⟨rfl, (ban_error_taxonomy c7Reg c7Reg wSet0 "nope").2.2.2.1 rfl⟩,
   ⟨rfl, rfl, rfl, (ban_error_taxonomy c7Reg c7Reg wSet0 "ssi").2.2.2.2.2 rfl rfl rfl⟩⟩

/-- C8: with `Debug` true, every `FromCache` call delegates to `FromFile`
(literal equality of results), leaves the cache untouched, performs a fresh
fetch (the event trace starts with a fetch of the resolved path), and so does
an immediately repeated call on the resulting state, which performs the
identical work again; moreover the outcome and the event trace of a debug
call are independent of the cache contents. -/
theorem FromCache_debug_bypass (parse : Bytes → Except String Unit)
    (s : TemplateSet) (f : String) (c : List (String × Template))
    (h : s.Debug = true) :
    FromCache parse s f = FromFile parse s f ∧
    ((FromCache parse s f).2.1).templateCache = s.templateCache ∧
    ((FromCache parse s f).2.2).head? = some (Event.fetch (s.loader.Abs "" f)) ∧
    FromCache parse ((FromCache parse s f).2.1) f
      = FromFile parse ((FromCache parse s f).2.1) f ∧
    ((FromCache parse ((FromCache parse s f).2.1) f).2.2).head?
      = some (Event.fetch (s.loader.Abs "" f)) ∧
    (FromCache parse ((FromCache parse s f).2.1) f).2.2
      = (FromCache parse s f).2.2 ∧
    (FromCache parse { s with templateCache := c } f).1 = (FromCache parse s f).1 ∧
    (FromCache parse { s with templateCache := c } f).2.2 = (FromCache parse s f).2.2 := by
  have h1 : FromCache parse s f = FromFile parse s f :=
    FromCache_debug_eq parse s f h
  have hs2 : (FromCache parse s f).2.1 = { s with firstTemplateCreated := true } := by
    rw [h1, FromFile_set_eq]
  have hdbg2 : ((FromCache parse s f).2.1).Debug = true := by rw [hs2]; exact h
  have h4 : FromCache parse ((FromCache parse s f).2.1) f
      = FromFile parse ((FromCache parse s f).2.1) f :=
    FromCache_debug_eq parse _ f hdbg2
  have hld : ((FromCache parse s f).2.1).loader = s.loader := by rw [hs2]
  have hcdbg : ({ s with templateCache := c } : TemplateSet).Debug = true := h
  refine ⟨h1, ?_, ?_, h4, ?_, ?_, ?_, ?_⟩
  · rw [hs2]
  · rw [h1]; exact FromFile_head parse s f
  · rw [h4]
    have h5 := FromFile_head parse ((FromCache parse s f).2.1) f
    rw [hld] at h5
    exact h5
  · have h6 := (FromFile_congr parse ((FromCache parse s f).2.1) s f hld).2
    rw [h4, h6, h1]
  · rw [FromCache_debug_eq parse { s with templateCache := c } f hcdbg, h1]
    exact (FromFile_congr parse { s with templateCache := c } s f rfl).1
  · rw [FromCache_debug_eq parse { s with templateCache := c } f hcdbg, h1]
    exact (FromFile_congr parse { s with templateCache := c } s f rfl).2

theorem FromCache_debug_bypass_witness :
    dbgSet.Debug = true ∧
    (FromCache parseOk dbgSet "f" = FromFile parseOk dbgSet "f" ∧
      ((FromCache parseOk dbgSet "f").2.1).templateCache = dbgSet.templateCache ∧
      ((FromCache parseOk dbgSet "f").2.2).head?
        = some (Event.fetch (dbgSet.loader.Abs "" "f")) ∧
      FromCache parseOk ((FromCache parseOk dbgSet "f").2.1) "f"
        = FromFile parseOk ((FromCache parseOk dbgSet "f").2.1) "f" ∧
      ((FromCache parseOk ((FromCache parseOk dbgSet "f").2.1) "f").2.2).head?
        = some (Event.fetch (dbgSet.loader.Abs "" "f")) ∧
      (FromCache parseOk ((FromCache parseOk dbgSet "f").2.1) "f").2.2
        = (FromCache parseOk dbgSet "f").2.2 ∧
      (FromCache parseOk { dbgSet with templateCache := [("f", wTpl)] } "f").1
        = (FromCache parseOk dbgSet "f").1 ∧
      (FromCache parseOk { dbgSet with templateCache := [("f", wTpl)] } "f").2.2
        = (FromCache parseOk dbgSet "f").2.2) :=
  ⟨rfl, FromCache_debug_bypass parseOk dbgSet "f" [("f", wTpl)] rfl⟩

/-- C1: once `FromCache` has stored an entry under a key, no later operation
on the set ever replaces or removes it; and any later `FromCache` call made
while `Debug` is false whose filename resolves (top-level) to that key
returns exactly the stored template. -/
theorem FromCache_entry_persistent (parse : Bytes → Except String Unit)
    (s s' : TemplateSet) (k : String) (t : Template)
    (hk : s.templateCache.lookup k = some t)
    (hreach : Reachable parse s s') :
    s'.templateCache.lookup k = some t ∧
    (s'.Debug = false → ∀ f, s'.loader.Abs "" f = k →
      (FromCache parse s' f).1 = Except.ok t) := by
  have hk' := Reachable_cacheMono parse hreach k t hk
  refine ⟨hk', fun hdbg f hf => ?_⟩
  rw [FromCache_spec parse s' f hdbg, hf, hk']

theorem FromCache_entry_persistent_witness :
    wSet1.templateCache.lookup "f" = some wTpl ∧
    (wSet2.templateCache.lookup "f" = some wTpl ∧
      (wSet2.Debug = false → ∀ f, wSet2.loader.Abs "" f = "f" →
        (FromCache parseOk wSet2 f).1 = Except.ok wTpl)) ∧
    (FromCache parseOk wSet2 "f").1 = Except.ok wTpl := by
  have h := FromCache_entry_persistent parseOk wSet1 wSet2 "f" wTpl rfl
    (Relation.ReflTransGen.single (Step.fromString wSet1 "x"))
  exact ⟨rfl, h, h.2 rfl "f" rfl⟩

/-- C2: a valid, not-yet-banned tag (or filter) can be banned while the
first-template latch is still down; after any successful `FromString`,
`FromFile` or `FromCache` call on a set reachable from `NewSet`, the
identical ban call fails with the frozen-sandbox error and returns the set —
and hence both banned sets — unchanged. -/
theorem ban_frozen_after_success (parse : Bytes → Except String Unit)
    (n0 : String) (ld : TemplateLoader) (regT regF : List String)
    (s : TemplateSet) (nm : String)
    (hreach : Reachable parse (NewSet n0 ld) s)
    (hvT : regT.contains nm = true) (hvF : regF.contains nm = true) :
    (s.firstTemplateCreated = false → s.bannedTags.contains nm = false →
      (BanTag regT s nm).1 = Except.ok ()) ∧
    (s.firstTemplateCreated = false → s.bannedFilters.contains nm = false →
      (BanFilter regF s nm).1 = Except.ok ()) ∧
    (∀ src t, (FromString parse s src).1 = Except.ok t →
      BanTag regT (FromString parse s src).2.1 nm
          = (Except.error tagsFrozenMsg, (FromString parse s src).2.1) ∧
      BanFilter regF (FromString parse s src).2.1 nm
          = (Except.error filtersFrozenMsg, (FromString parse s src).2.1)) ∧
    (∀ f t, (FromFile parse s f).1 = Except.ok t →
      BanTag regT (FromFile parse s f).2.1 nm
          = (Except.error tagsFrozenMsg, (FromFile parse s f).2.1) ∧
      BanFilter regF (FromFile parse s f).2.1 nm
          = (Except.error filtersFrozenMsg, (FromFile parse s f).2.1)) ∧
    (∀ f t, (FromCache parse s f).1 = Except.ok t →
      BanTag regT (FromCache parse s f).2.1 nm
          = (Except.error tagsFrozenMsg, (FromCache parse s f).2.1) ∧
      BanFilter regF (FromCache parse s f).2.1 nm
          = (Except.error filtersFrozenMsg, (FromCache parse s f).2.1)) := by
  have hinv := Reachable_inv parse n0 ld hreach
  refine ⟨fun hl hb => ?_, fun hl hb => ?_, fun src t hok => ?_,
    fun f t hok => ?_, fun f t hok => ?_⟩
  · rw [BanTag_ok regT s nm hvT hl hb]
  · rw [BanFilter_ok regF s nm hvF hl hb]
  · exact ⟨BanTag_frozen regT _ nm hvT rfl, BanFilter_frozen regF _ nm hvF rfl⟩
  · have hl : ((FromFile parse s f).2.1).firstTemplateCreated = true := by
      rw [FromFile_set_eq]
    exact ⟨BanTag_frozen regT _ nm hvT hl, BanFilter_frozen regF _ nm hvF hl⟩
  · have hl := FromCache_latch_of_inv parse s f hinv
    exact ⟨BanTag_frozen regT _ nm hvT hl, BanFilter_frozen regF _ nm hvF hl⟩

theorem ban_frozen_after_success_witness :
    c7Reg.contains "ssi" = true ∧
    (BanTag c7Reg wSet0 "ssi").1 = Except.ok () ∧
    (BanFilter c7Reg wSet0 "ssi").1 = Except.ok () ∧
    (FromString parseOk wSet0 "x").1
      = Except.ok { name := "<string>", isTplString := true, source := "x" } ∧
    BanTag c7Reg (FromString parseOk wSet0 "x").2.1 "ssi"
      = (Except.error tagsFrozenMsg, (FromString parseOk wSet0 "x").2.1) ∧
    (FromFile parseOk wSet0 "f").1 = Except.ok wTpl ∧
    BanFilter c7Reg (FromFile parseOk wSet0 "f").2.1 "ssi"
      = (Except.error filtersFrozenMsg, (FromFile parseOk wSet0 "f").2.1) ∧
    (FromCache parseOk wSet0 "f").1 = Except.ok wTpl ∧
    BanTag c7Reg (FromCache parseOk wSet0 "f").2.1 "ssi"
      = (Except.error tagsFrozenMsg, (FromCache parseOk wSet0 "f").2.1) := by
  have h := ban_frozen_after_success parseOk "w" idLoader c7Reg c7Reg wSet0 "ssi"
    Relation.ReflTransGen.refl rfl rfl
  exact ⟨rfl, h.1 rfl rfl, h.2.1 rfl rfl, rfl,
    (h.2.2.1 "x" { name := "<string>", isTplString := true, source := "x" } rfl).1,
    rfl, (h.2.2.2.1 "f" wTpl rfl).2, rfl, (h.2.2.2.2 "f" wTpl rfl).1⟩

/-- C5 counterexample: the claim says the error of a failing non-debug
`FromCache` is tagged with the requested path. With a loader that prefixes
`"x"` on resolution and always fails the fetch, `FromCache "m"` returns an
error whose `Filename` is the canonical path `"xm"`, not the requested path
`"m"` — `FromFile` is invoked on the cleaned filename (`template_sets.go`
line 136) and tags the error with its own argument (line 165). -/
theorem FromCache_error_tag_cex :
    (NewSet "c5" prefixingBadLoader).Debug = false ∧
    (FromCache parseOk (NewSet "c5" prefixingBadLoader) "m").1
      = Except.error { Filename := "xm", Sender := "fromfile", ErrorMsg := "nf" } ∧
    ¬ ("xm" = "m") := by
  refine ⟨rfl, rfl, ?_⟩
  simp

/-- C5 (amended): when a non-debug `FromCache` request fails, no cache entry
is inserted, the returned error is tagged with the canonical path
`Abs("", filename)` — the cache key, which may differ from the requested
path — and with the stage that actually failed: when the fetch of
`Abs("", Abs("", filename))` (the path `FromFile` really reads) fails at
`Get` or at read, the error is exactly the `"fromfile"`-tagged error
carrying the loader's message, and when the fetch succeeds but the parse
fails, it is exactly the `"compile"`-tagged error carrying the parser's
message; an immediately repeated identical request performs the same fetch
attempts and fails with the identical error (no negative caching). -/
theorem FromCache_failure_no_insert (parse : Bytes → Except String Unit)
    (s : TemplateSet) (f : String) (e : Error) (hdbg : s.Debug = false)
    (herr : (FromCache parse s f).1 = Except.error e) :
    ((FromCache parse s f).2.1).templateCache = s.templateCache ∧
    e.Filename = s.loader.Abs "" f ∧
    (e.Sender = "fromfile" ∨ e.Sender = "compile") ∧
    (∀ msg, s.loader.Get (s.loader.Abs "" (s.loader.Abs "" f))
        = FetchResult.getErr msg →
      e = { Filename := s.loader.Abs "" f, Sender := "fromfile", ErrorMsg := msg }) ∧
    (∀ msg, s.loader.Get (s.loader.Abs "" (s.loader.Abs "" f))
        = FetchResult.readErr msg →
      e = { Filename := s.loader.Abs "" f, Sender := "fromfile", ErrorMsg := msg }) ∧
    (∀ buf msg, s.loader.Get (s.loader.Abs "" (s.loader.Abs "" f))
        = FetchResult.ok buf →
      parse buf = Except.error msg →
      e = { Filename := s.loader.Abs "" f, Sender := "compile", ErrorMsg := msg }) ∧
    (FromCache parse ((FromCache parse s f).2.1) f).1 = Except.error e ∧
    (FromCache parse ((FromCache parse s f).2.1) f).2.2
      = (FromCache parse s f).2.2 := by
  have hspec := FromCache_spec parse s f hdbg
  cases hcl : s.templateCache.lookup (s.loader.Abs "" f) with
  | some tpl =>
    exfalso
    rw [hspec, hcl] at herr
    exact Except.noConfusion herr
  | none =>
    rcases hff : FromFile parse s (s.loader.Abs "" f) with ⟨r, s1, evs⟩
    have hs1 : s1 = { s with firstTemplateCreated := true } := by
      have h0 := FromFile_set_eq parse s (s.loader.Abs "" f)
      rw [hff] at h0
      exact h0
    cases r with
    | ok tpl =>
      exfalso
      rw [hspec, hcl, hff] at herr
      exact Except.noConfusion herr
    | error e0 =>
      have hres : FromCache parse s f = (Except.error e0, s1, evs) := by
        rw [hspec, hcl, hff]
      have he : e0 = e := by
        rw [hres] at herr
        exact Except.error.inj herr
      subst he
      have hffErr : (FromFile parse s (s.loader.Abs "" f)).1 = Except.error e0 := by
        rw [hff]
      have hfields := FromFile_error_fields parse s (s.loader.Abs "" f) e0 hffErr
      have hstage := FromFile_error_stage parse s (s.loader.Abs "" f) e0 hffErr
      have hstate : (FromCache parse s f).2.1 = { s with firstTemplateCreated := true } := by
        rw [hres]
        exact hs1
      have hsecond := FromCache_latch_indep parse s f
      refine ⟨by rw [hres, hs1], hfields.1, hfields.2,
        hstage.1, hstage.2.1, hstage.2.2, ?_, ?_⟩
      · rw [hstate, hsecond.1, hres]
      · rw [hstate, hsecond.2]

theorem FromCache_failure_no_insert_witness :
    (NewSet "c5" prefixingBadLoader).Debug = false ∧
    (FromCache parseOk (NewSet "c5" prefixingBadLoader) "m").1
      = Except.error { Filename := "xm", Sender := "fromfile", ErrorMsg := "nf" } ∧
    (NewSet "c5" prefixingBadLoader).loader.Get
        ((NewSet "c5" prefixingBadLoader).loader.Abs ""
          ((NewSet "c5" prefixingBadLoader).loader.Abs "" "m"))
      = FetchResult.getErr "nf" ∧
    ((FromCache parseOk (NewSet "c5" prefixingBadLoader) "m").2.1).templateCache
      = (NewSet "c5" prefixingBadLoader).templateCache ∧
    ({ Filename := "xm", Sender := "fromfile", ErrorMsg := "nf" } : Error)
      = { Filename := (NewSet "c5" prefixingBadLoader).loader.Abs "" "m",
          Sender := "fromfile", ErrorMsg := "nf" } ∧
    (FromCache parseOk
        ((FromCache parseOk (NewSet "c5" prefixingBadLoader) "m").2.1) "m").1
      = Except.error { Filename := "xm", Sender := "fromfile", ErrorMsg := "nf" } ∧
    (FromCache parseOk
        ((FromCache parseOk (NewSet "c5" prefixingBadLoader) "m").2.1) "m").2.2
      = (FromCache parseOk (NewSet "c5" prefixingBadLoader) "m").2.2 ∧
    wSet0.Debug = false ∧
    (FromCache parseFail wSet0 "f").1
      = Except.error { Filename := "f", Sender := "compile", ErrorMsg := "no parse" } ∧
    wSet0.loader.Get (wSet0.loader.Abs "" (wSet0.loader.Abs "" "f"))
      = FetchResult.ok "src:f" ∧
    parseFail "src:f" = Except.error "no parse" ∧
    ({ Filename := "f", Sender := "compile", ErrorMsg := "no parse" } : Error)
      = { Filename := wSet0.loader.Abs "" "f", Sender := "compile",
          ErrorMsg := "no parse" } := by
  have h1 := FromCache_failure_no_insert parseOk (NewSet "c5" prefixingBadLoader) "m"
    { Filename := "xm", Sender := "fromfile", ErrorMsg := "nf" } rfl rfl
  have h2 := FromCache_failure_no_insert parseFail wSet0 "f"
    { Filename := "f", Sender := "compile", ErrorMsg := "no parse" } rfl rfl
  exact ⟨rfl, rfl, rfl, h1.1, h1.2.2.2.1 "nf" rfl,
    h1.2.2.2.2.2.2.1, h1.2.2.2.2.2.2.2,
    rfl, rfl, rfl, rfl, h2.2.2.2.2.2.1 "src:f" "no parse" rfl rfl⟩

/-- C6 counterexample: the claim says a non-debug `FromCache` fetches the
source at the same canonical path it uses as cache key. With a loader whose
resolution prepends `"x"`, `FromCache "m"` caches under the key
`Abs("", "m") = "xm"` but fetches `Abs("", Abs("", "m")) = "xxm"`, because
the cache-miss path hands the already-cleaned filename to `FromFile`
(`template_sets.go` line 136), which resolves it again (line 162). -/
theorem FromCache_double_resolution_cex :
    (FromCache parseOk (NewSet "c6" prefixingOkLoader) "m").2.2
      = [Event.fetch "xxm", Event.compile "xm"] ∧
    ((FromCache parseOk (NewSet "c6" prefixingOkLoader) "m").2.1).templateCache.lookup "xm"
      = some { name := "xm", isTplString := false, source := "body@xxm" } ∧
    ¬ ("xxm" = "xm") := by
  refine ⟨rfl, rfl, ?_⟩
  simp

/-- C6 (amended): a non-debug `FromCache` uses the top-level resolution
`Abs("", filename)` as its cache key and stores a successful result under
exactly that key, but on a cache miss the source it fetches is at
`Abs("", Abs("", filename))` — resolution is applied a second time inside
`FromFile` — so key and fetched path agree exactly when top-level resolution
is idempotent on the filename. -/
theorem FromCache_key_and_fetch (parse : Bytes → Except String Unit)
    (s : TemplateSet) (f : String) (hdbg : s.Debug = false)
    (hmiss : s.templateCache.lookup (s.loader.Abs "" f) = none) :
    ((FromCache parse s f).2.2).head?
      = some (Event.fetch (s.loader.Abs "" (s.loader.Abs "" f))) ∧
    (∀ t, (FromCache parse s f).1 = Except.ok t →
      ((FromCache parse s f).2.1).templateCache.lookup (s.loader.Abs "" f)
        = some t) ∧
    (s.loader.Abs "" (s.loader.Abs "" f) = s.loader.Abs "" f →
      ((FromCache parse s f).2.2).head? = some (Event.fetch (s.loader.Abs "" f))) := by
  rcases hff : FromFile parse s (s.loader.Abs "" f) with ⟨r, s1, evs⟩
  have hhead : evs.head? = some (Event.fetch (s.loader.Abs "" (s.loader.Abs "" f))) := by
    have h0 := FromFile_head parse s (s.loader.Abs "" f)
    rw [hff] at h0
    exact h0
  cases r with
  | ok tpl =>
    have hres : FromCache parse s f
        = (Except.ok tpl,
            { s1 with templateCache := (s.loader.Abs "" f, tpl) :: s1.templateCache },
            evs) := by
      rw [FromCache_spec parse s f hdbg, hmiss, hff]
    refine ⟨by rw [hres]; exact hhead, fun t ht => ?_,
      fun hid => by rw [hres]; rw [hid] at hhead; exact hhead⟩
    have htt : tpl = t := by
      rw [hres] at ht
      exact Except.ok.inj ht
    subst htt
    rw [hres]
    simp [List.lookup]
  | error e =>
    have hres : FromCache parse s f = (Except.error e, s1, evs) := by
      rw [FromCache_spec parse s f hdbg, hmiss, hff]
    refine ⟨by rw [hres]; exact hhead, fun t ht => ?_,
      fun hid => by rw [hres]; rw [hid] at hhead; exact hhead⟩
    exfalso
    rw [hres] at ht
    exact Except.noConfusion ht

theorem FromCache_key_and_fetch_witness :
    (NewSet "c6" prefixingOkLoader).Debug = false ∧
    (NewSet "c6" prefixingOkLoader).templateCache.lookup
        ((NewSet "c6" prefixingOkLoader).loader.Abs "" "m") = none ∧
    ((FromCache parseOk (NewSet "c6" prefixingOkLoader) "m").2.2).head?
      = some (Event.fetch
          ((NewSet "c6" prefixingOkLoader).loader.Abs ""
            ((NewSet "c6" prefixingOkLoader).loader.Abs "" "m"))) ∧
    ((FromCache parseOk (NewSet "c6" prefixingOkLoader) "m").2.1).templateCache.lookup
        ((NewSet "c6" prefixingOkLoader).loader.Abs "" "m")
      = some { name := "xm", isTplString := false, source := "body@xxm" } ∧
    wSet0.Debug = false ∧
    wSet0.templateCache.lookup (wSet0.loader.Abs "" "f") = none ∧
    wSet0.loader.Abs "" (wSet0.loader.Abs "" "f") = wSet0.loader.Abs "" "f" ∧
    ((FromCache parseOk wSet0 "f").2.2).head?
      = some (Event.fetch (wSet0.loader.Abs "" "f")) := by
  have h6 := FromCache_key_and_fetch parseOk (NewSet "c6" prefixingOkLoader) "m" rfl rfl
  have hw := FromCache_key_and_fetch parseOk wSet0 "f" rfl rfl
  exact ⟨rfl, rfl, h6.1,
    h6.2.1 { name := "xm", isTplString := false, source := "body@xxm" } rfl,
    rfl, rfl, rfl, hw.2.2 rfl⟩

end Pongo2
